import Mathlib

/-!
Verification of the sprite-sheet subsystem of the gd.py repository.

The Sprite data model and its operations are embedded from
`src/gd/image/sprite.py`.  The geometry primitives (`Point`, `Size`,
`Rectangle`, from `gd/image/geometry.py`), the `Sheet` back-reference type
(`gd/image/sheet.py`) and the packer are not present under `src/`; they are
modelled from the specification, as marked in their doc comments.

Numeric components are Python floats in the source; they are modelled as
rationals, the ideal arithmetic the spec describes (every value is finite).
Python in-place mutators (`invert`, `invert_size`) that `return self` are
modelled as pure functions returning the updated receiver: the returned
value is the post-state of the mutated object.
-/

/-- Modelled from the spec: `gd/image/geometry.py` is not under `src/`.
Point `{x: float, y: float}` is a 2-D offset; components default to 0. -/
structure Point where
  x : ℚ := 0
  y : ℚ := 0
deriving DecidableEq, Repr

/-- Modelled from the spec: `inverted()` returns a copy of the point with
`x` and `y` swapped. -/
def Point.inverted (p : Point) : Point :=
  { x := p.y, y := p.x }

/-- Modelled from the spec: `invert()` swaps `x` and `y` in place and
returns self; modelled as returning the updated value. -/
def Point.invert (p : Point) : Point :=
  { x := p.y, y := p.x }

/-- Modelled from the spec: Size `{width: float, height: float}`;
components default to 0. -/
structure Size where
  width : ℚ := 0
  height : ℚ := 0
deriving DecidableEq, Repr

/-- Modelled from the spec: `inverted()` returns a copy with width and
height swapped. -/
def Size.inverted (s : Size) : Size :=
  { width := s.height, height := s.width }

/-- Modelled from the spec: `invert()` swaps width and height in place and
returns self; modelled as returning the updated value. -/
def Size.invert (s : Size) : Size :=
  { width := s.height, height := s.width }

/-- Modelled from the spec: Rectangle `{x, y, width, height}`, an
axis-aligned box in sheet pixel space; components default to 0. -/
structure Rectangle where
  x : ℚ := 0
  y : ℚ := 0
  width : ℚ := 0
  height : ℚ := 0
deriving DecidableEq, Repr

/-- Modelled from the spec: `invert_size()` swaps width and height without
moving the origin, in place, returning self; modelled as returning the
updated value. -/
def Rectangle.invert_size (r : Rectangle) : Rectangle :=
  { x := r.x, y := r.y, width := r.height, height := r.width }

/-- Modelled from the spec: the non-mutating counterpart of
`invert_size()`: a copy with width and height swapped, origin unchanged. -/
def Rectangle.inverted_size (r : Rectangle) : Rectangle :=
  { x := r.x, y := r.y, width := r.height, height := r.width }

/-- Modelled from the spec: `gd/image/sheet.py` is not under `src/`.  Per
the design notes, the Sheet back-reference held by a Sprite is modelled as
an identifier into the collection of sheets; its internal structure is
irrelevant to the Sprite operations verified here. -/
structure Sheet where
  id : Nat
deriving DecidableEq, Repr

/-- From `src/gd/image/sprite.py`: `COPY_SUFFIX = "_copy"`. -/
def COPY_SUFFIX : String := "_copy"

/-- Python string repetition `s * n` for a natural repetition count. -/
def repeatString (s : String) : Nat → String
  | 0 => ""
  | n + 1 => s ++ repeatString s n

/-- From `src/gd/image/sprite.py`: the Sprite dataclass.  Field defaults
follow the attrs declaration (`factory=set`, `factory=Point`, ...); the
`aliases` set is modelled as a list of strings, `copy_level` (an `int`
that the spec constrains to be nonnegative) as a natural number, and the
optional sheet back-reference as `Option Sheet`. -/
structure Sprite where
  name : String
  aliases : List String := []
  relative_offset : Point := {}
  size : Size := {}
  source_size : Size := {}
  rectangle : Rectangle := {}
  rotated : Bool := false
  copy_level : Nat := 0
  sheet_unchecked : Option Sheet := none
deriving DecidableEq, Repr

/-- From `src/gd/image/sprite.py`: `invert_size` inverts `size`,
`source_size` and `rectangle` in place and returns self; modelled as
returning the updated receiver (which is also the post-state of the
mutated sprite). -/
def Sprite.invert_size (s : Sprite) : Sprite :=
  { s with
    size := s.size.invert
    source_size := s.source_size.invert
    rectangle := s.rectangle.invert_size }

/-- From `src/gd/image/sprite.py`: `next_copy_level` is `copy_level + 1`. -/
def Sprite.next_copy_level (s : Sprite) : Nat :=
  s.copy_level + 1

/-- From `src/gd/image/sprite.py`: `inverted_size` builds a new Sprite with
inverted `size`, `source_size` and `rectangle`, the next copy level, and
every other field taken from the receiver. -/
def Sprite.inverted_size (s : Sprite) : Sprite :=
  { name := s.name
    aliases := s.aliases
    relative_offset := s.relative_offset
    size := s.size.inverted
    source_size := s.source_size.inverted
    rectangle := s.rectangle.inverted_size
    rotated := s.rotated
    copy_level := s.next_copy_level
    sheet_unchecked := s.sheet_unchecked }

/-- From `src/gd/image/sprite.py`: `name_with_copy` is the name followed by
`COPY_SUFFIX` repeated `copy_level` times. -/
def Sprite.name_with_copy (s : Sprite) : String :=
  s.name ++ repeatString COPY_SUFFIX s.copy_level

/-- From `src/gd/image/sprite.py`: the computed `offset` property. -/
def Sprite.offset (s : Sprite) : Point :=
  { x := s.relative_offset.x + (s.source_size.width - s.rectangle.width) / 2
    y := s.relative_offset.y - (s.source_size.height - s.rectangle.height) / 2 }

/-- From `src/gd/image/sprite.py`: `get_sheet` returns the attached sheet,
or raises `ValueError` when none is attached; the exception is modelled as
the error branch of `Except` carrying the formatted message. -/
def Sprite.get_sheet (s : Sprite) : Except String Sheet :=
  match s.sheet_unchecked with
  | none => Except.error ("Sheet is not attached to " ++ s.name_with_copy ++ ".")
  | some result => Except.ok result

/-- From `src/gd/image/sprite.py`: `set_sheet` records the reference. -/
def Sprite.set_sheet (s : Sprite) (sheet : Sheet) : Sprite :=
  { s with sheet_unchecked := some sheet }

/-- From `src/gd/image/sprite.py`: `delete_sheet` clears the reference. -/
def Sprite.delete_sheet (s : Sprite) : Sprite :=
  { s with sheet_unchecked := none }

/-- From `src/gd/image/sprite.py`: `attach_sheet` sets the sheet and
returns self. -/
def Sprite.attach_sheet (s : Sprite) (sheet : Sheet) : Sprite :=
  s.set_sheet sheet

/-- From `src/gd/image/sprite.py`: `detach_sheet` deletes the sheet and
returns self. -/
def Sprite.detach_sheet (s : Sprite) : Sprite :=
  s.delete_sheet

/-- From `src/gd/image/sprite.py`: `is_rotated` reads the flag. -/
def Sprite.is_rotated (s : Sprite) : Bool :=
  s.rotated

/-- From `src/gd/image/sprite.py`: `copy` builds a new Sprite with every
field of the receiver except `copy_level`, which becomes the next copy
level. -/
def Sprite.copy (s : Sprite) : Sprite :=
  { name := s.name
    aliases := s.aliases
    relative_offset := s.relative_offset
    size := s.size
    source_size := s.source_size
    rectangle := s.rectangle
    rotated := s.rotated
    copy_level := s.next_copy_level
    sheet_unchecked := s.sheet_unchecked }

/-- C1: for every Sprite, the computed offset equals
`(relative_offset.x + (source_size.width - rectangle.width) / 2,
  relative_offset.y - (source_size.height - rectangle.height) / 2)`;
in particular, for `source_size = (100, 80)`, a rectangle of width 60 and
height 80, and `relative_offset = (0, 0)`, the offset is `(20, 0)`. -/
theorem claim_c1_offset :
    (∀ s : Sprite,
      s.offset =
        { x := s.relative_offset.x + (s.source_size.width - s.rectangle.width) / 2
          y := s.relative_offset.y - (s.source_size.height - s.rectangle.height) / 2 }) ∧
    (Sprite.offset
      { name := "sample"
        relative_offset := { x := 0, y := 0 }
        source_size := { width := 100, height := 80 }
        rectangle := { x := 0, y := 0, width := 60, height := 80 } }).x = 20 ∧
    (Sprite.offset
      { name := "sample"
        relative_offset := { x := 0, y := 0 }
        source_size := { width := 100, height := 80 }
        rectangle := { x := 0, y := 0, width := 60, height := 80 } }).y = 0 := by
  refine ⟨fun s => rfl, ?_, ?_⟩ <;> norm_num [Sprite.offset]

/-- C2: `copy` returns a new Sprite with identical name, aliases,
relative offset, size, source size, rectangle, rotated flag and sheet
binding, with `copy_level` exactly one greater; in particular the copy is
not equal to the original, and it occupies the very same rectangle (no
additional sheet area).  `copy` is a pure function of its receiver in this
embedding, so the original sprite is left unchanged by construction. -/
theorem claim_c2_copy :
    ∀ s : Sprite,
      s.copy.name = s.name ∧
      s.copy.aliases = s.aliases ∧
      s.copy.relative_offset = s.relative_offset ∧
      s.copy.size = s.size ∧
      s.copy.source_size = s.source_size ∧
      s.copy.rectangle = s.rectangle ∧
      s.copy.rotated = s.rotated ∧
      s.copy.sheet_unchecked = s.sheet_unchecked ∧
      s.copy.copy_level = s.copy_level + 1 ∧
      s.copy ≠ s := by
  intro s
  refine ⟨rfl, rfl, rfl, rfl, rfl, rfl, rfl, rfl, rfl, ?_⟩
  intro h
  have hl : s.copy.copy_level = s.copy_level := congrArg Sprite.copy_level h
  simp [Sprite.copy, Sprite.next_copy_level] at hl

/-- C3: `name_with_copy` equals the name with the copy marker appended
`copy_level` times; it equals the bare name at copy level zero, and a
Sprite named "hero", its copy, and the copy of that copy have
`name_with_copy` values "hero", "hero_copy" and "hero_copy_copy". -/
theorem claim_c3_name_with_copy :
    (∀ s : Sprite, s.name_with_copy = s.name ++ repeatString COPY_SUFFIX s.copy_level) ∧
    (∀ t : Sprite, t.copy_level = 0 → t.name_with_copy = t.name) ∧
    ({ name := "hero" } : Sprite).name_with_copy = "hero" ∧
    ({ name := "hero" } : Sprite).copy.name_with_copy = "hero_copy" ∧
    ({ name := "hero" } : Sprite).copy.copy.name_with_copy = "hero_copy_copy" := by
  refine ⟨fun _ => rfl, ?_, by decide, by decide, by decide⟩
  intro t h
  simp [Sprite.name_with_copy, h, repeatString]

/-- C3 witness: the copy-level-zero branch of the naming law evaluated on
the concrete sprite named "hero". -/
theorem claim_c3_name_with_copy_witness :
    ({ name := "hero" } : Sprite).name_with_copy = "hero" :=
  claim_c3_name_with_copy.2.1 { name := "hero" } rfl

/-- C4: `get_sheet` fails with the "sheet is not attached" error exactly
when the sprite is unbound — standalone construction and `detach_sheet`
both leave it unbound — while after `attach_sheet`, even over a prior
binding, it returns the newly attached sheet; attaching and detaching
change only the sheet binding (every other field is preserved), and
`get_sheet` is a pure observer, so the error leaves all state intact. -/
theorem claim_c4_get_sheet :
    (∀ s : Sprite, (∃ e, s.get_sheet = Except.error e) ↔ s.sheet_unchecked = none) ∧
    (∀ (s : Sprite) (sh : Sheet), (s.attach_sheet sh).get_sheet = Except.ok sh) ∧
    (∀ s : Sprite,
      s.detach_sheet.get_sheet =
        Except.error ("Sheet is not attached to " ++ s.name_with_copy ++ ".")) ∧
    (({ name := "hero" } : Sprite).get_sheet =
        Except.error "Sheet is not attached to hero.") ∧
    (∀ (s : Sprite) (sh : Sheet),
      (s.attach_sheet sh).sheet_unchecked = some sh ∧
      (s.attach_sheet sh).name = s.name ∧
      (s.attach_sheet sh).aliases = s.aliases ∧
      (s.attach_sheet sh).relative_offset = s.relative_offset ∧
      (s.attach_sheet sh).size = s.size ∧
      (s.attach_sheet sh).source_size = s.source_size ∧
      (s.attach_sheet sh).rectangle = s.rectangle ∧
      (s.attach_sheet sh).rotated = s.rotated ∧
      (s.attach_sheet sh).copy_level = s.copy_level) ∧
    (∀ s : Sprite,
      s.detach_sheet.sheet_unchecked = none ∧
      s.detach_sheet.name = s.name ∧
      s.detach_sheet.aliases = s.aliases ∧
      s.detach_sheet.relative_offset = s.relative_offset ∧
      s.detach_sheet.size = s.size ∧
      s.detach_sheet.source_size = s.source_size ∧
      s.detach_sheet.rectangle = s.rectangle ∧
      s.detach_sheet.rotated = s.rotated ∧
      s.detach_sheet.copy_level = s.copy_level) := by
  refine ⟨?_, fun _ _ => rfl, fun _ => rfl, rfl, ?_, ?_⟩
  · intro s
    constructor
    · rintro ⟨e, he⟩
      cases h : s.sheet_unchecked with
      | none => rfl
      | some sh => simp [Sprite.get_sheet, h] at he
    · intro h
      exact ⟨"Sheet is not attached to " ++ s.name_with_copy ++ ".",
        by simp [Sprite.get_sheet, h]⟩
  · intro s sh
    exact ⟨rfl, rfl, rfl, rfl, rfl, rfl, rfl, rfl, rfl⟩
  · intro s
    exact ⟨rfl, rfl, rfl, rfl, rfl, rfl, rfl, rfl, rfl⟩

/-- C5: `invert_size` swaps width and height of `size` and `source_size`,
swaps width and height of `rectangle` while leaving its origin in place,
and the returned sprite is the (mutated) receiver itself — in this
embedding the returned value is by definition the post-state of the
receiver, capturing the fluent self-return. -/
theorem claim_c5_invert_size :
    ∀ s : Sprite,
      s.invert_size.size.width = s.size.height ∧
      s.invert_size.size.height = s.size.width ∧
      s.invert_size.source_size.width = s.source_size.height ∧
      s.invert_size.source_size.height = s.source_size.width ∧
      s.invert_size.rectangle.width = s.rectangle.height ∧
      s.invert_size.rectangle.height = s.rectangle.width ∧
      s.invert_size.rectangle.x = s.rectangle.x ∧
      s.invert_size.rectangle.y = s.rectangle.y := by
  intro s
  exact ⟨rfl, rfl, rfl, rfl, rfl, rfl, rfl, rfl⟩

/-- C6: `inverted_size` returns a new Sprite whose size, source size and
rectangle are the width/height-swapped versions of the receiver's, whose
copy level is one greater, and whose name, aliases, relative offset,
rotated flag and sheet binding are the receiver's; being a pure function
of its receiver, it leaves the original (rectangle included) unchanged. -/
theorem claim_c6_inverted_size :
    ∀ s : Sprite,
      s.inverted_size.size = s.size.inverted ∧
      s.inverted_size.source_size = s.source_size.inverted ∧
      s.inverted_size.rectangle = s.rectangle.inverted_size ∧
      s.inverted_size.size.width = s.size.height ∧
      s.inverted_size.size.height = s.size.width ∧
      s.inverted_size.source_size.width = s.source_size.height ∧
      s.inverted_size.source_size.height = s.source_size.width ∧
      s.inverted_size.rectangle.x = s.rectangle.x ∧
      s.inverted_size.rectangle.y = s.rectangle.y ∧
      s.inverted_size.rectangle.width = s.rectangle.height ∧
      s.inverted_size.rectangle.height = s.rectangle.width ∧
      s.inverted_size.copy_level = s.copy_level + 1 ∧
      s.inverted_size.name = s.name ∧
      s.inverted_size.aliases = s.aliases ∧
      s.inverted_size.relative_offset = s.relative_offset ∧
      s.inverted_size.rotated = s.rotated ∧
      s.inverted_size.sheet_unchecked = s.sheet_unchecked := by
  intro s
  exact ⟨rfl, rfl, rfl, rfl, rfl, rfl, rfl, rfl, rfl, rfl, rfl, rfl, rfl, rfl, rfl,
    rfl, rfl⟩

/-- C7: inversion is an involution on Points, Sizes and Rectangles, and
consequently applying `invert_size` twice to a Sprite restores it — in
particular its size, source size and rectangle — exactly. -/
theorem claim_c7_involution :
    (∀ p : Point, p.inverted.inverted = p) ∧
    (∀ z : Size, z.inverted.inverted = z) ∧
    (∀ r : Rectangle, r.inverted_size.inverted_size = r) ∧
    (∀ s : Sprite, s.invert_size.invert_size = s) ∧
    (∀ s : Sprite,
      s.invert_size.invert_size.size = s.size ∧
      s.invert_size.invert_size.source_size = s.source_size ∧
      s.invert_size.invert_size.rectangle = s.rectangle) :=
  ⟨fun _ => rfl, fun _ => rfl, fun _ => rfl, fun _ => rfl,
    fun _ => ⟨rfl, rfl, rfl⟩⟩

/-- C8: the mutating and non-mutating inversion forms agree —
`inverted_size` produces exactly the sprite obtained by copying and then
inverting in place, field for field. -/
theorem claim_c8_inversion_forms_agree :
    ∀ s : Sprite, s.inverted_size = s.copy.invert_size :=
  fun _ => rfl

/-- C10: `invert_size` changes only the dimensions: name, aliases,
relative offset, rotated flag, copy level and sheet binding are untouched;
in particular it does not set `rotated` and does not bump `copy_level`. -/
theorem claim_c10_invert_size_frame :
    ∀ s : Sprite,
      s.invert_size.name = s.name ∧
      s.invert_size.aliases = s.aliases ∧
      s.invert_size.relative_offset = s.relative_offset ∧
      s.invert_size.rotated = s.rotated ∧
      s.invert_size.copy_level = s.copy_level ∧
      s.invert_size.sheet_unchecked = s.sheet_unchecked := by
  intro s
  exact ⟨rfl, rfl, rfl, rfl, rfl, rfl⟩

/-- Modelled from the spec: a placement request given to the Packer —
name, aliases, source pixel size and the trimmed rectangle within the
source (the packer code itself is not present in the repository source;
the spec describes it at design level in its packer section). -/
structure Request where
  name : String
  aliases : List String := []
  source_size : Size := {}
  trimmed : Rectangle := {}
deriving DecidableEq, Repr

/-- Modelled from the spec: packer configuration — maximum sheet width and
height and whether 90-degree rotation is allowed. -/
structure PackConfig where
  max_sheet_width : ℚ
  max_sheet_height : ℚ
  allow_rotation : Bool
deriving DecidableEq, Repr

/-- Modelled from the spec: the sort order of requests — descending
trimmed area, then descending trimmed height, then ascending name as the
stable tie-break required for deterministic output. -/
def requestBefore (a b : Request) : Bool :=
  let areaA := a.trimmed.width * a.trimmed.height
  let areaB := b.trimmed.width * b.trimmed.height
  if areaB < areaA then true
  else if areaA < areaB then false
  else if b.trimmed.height < a.trimmed.height then true
  else if a.trimmed.height < b.trimmed.height then false
  else a.name ≤ b.name

/-- Insertion of a request into an already sorted list of requests. -/
def insertRequest (r : Request) : List Request → List Request
  | [] => [r]
  | x :: xs => if requestBefore r x then r :: x :: xs else x :: insertRequest r xs

/-- Modelled from the spec: the deterministic sort of requests (insertion
sort over the order above). -/
def sortRequests : List Request → List Request
  | [] => []
  | r :: rs => insertRequest r (sortRequests rs)

/-- Modelled from the spec: a shelf is a horizontal strip of a given
height with a cursor tracking the next free x-offset. -/
structure PackShelf where
  y : ℚ
  height : ℚ
  cursor : ℚ
deriving DecidableEq, Repr

/-- Modelled from the spec: the per-sheet placement state — the open
shelves and the sprites placed so far, in placement order. -/
structure SheetState where
  shelves : List PackShelf
  sprites : List Sprite
deriving DecidableEq, Repr

/-- Index of the fitting shelf with the least wasted height (earliest
wins ties), together with that wasted height: a shelf fits a `w × h`
request when its remaining width is at least `w` and its height at least
`h`. -/
def bestShelfIdx (maxW w h : ℚ) : List PackShelf → Option (Nat × ℚ)
  | [] => none
  | sh :: rest =>
    let restBest := (bestShelfIdx maxW w h rest).map (fun p => (p.1 + 1, p.2))
    if sh.cursor + w ≤ maxW ∧ h ≤ sh.height then
      match restBest with
      | none => some (0, sh.height - h)
      | some (j, waste) =>
        if sh.height - h ≤ waste then some (0, sh.height - h) else some (j, waste)
    else restBest

/-- Advance the cursor of the shelf at the given index by `w`, returning
the updated shelves and the placement position (old cursor, shelf y). -/
def placeInShelves : List PackShelf → Nat → ℚ → List PackShelf × ℚ × ℚ
  | [], _, _ => ([], 0, 0)
  | sh :: rest, 0, w => ({ sh with cursor := sh.cursor + w } :: rest, sh.cursor, sh.y)
  | sh :: rest, i + 1, w =>
    let r := placeInShelves rest i w
    (sh :: r.1, r.2)

/-- The y-coordinate just below the lowest shelf of a sheet. -/
def shelvesBottom : List PackShelf → ℚ
  | [] => 0
  | sh :: rest => max (sh.y + sh.height) (shelvesBottom rest)

/-- Modelled from the spec: place a `w × h` request into an existing shelf
of the sheet, when one fits. -/
def placeExisting (cfg : PackConfig) (w h : ℚ) (st : SheetState) :
    Option (Rectangle × SheetState) :=
  match bestShelfIdx cfg.max_sheet_width w h st.shelves with
  | none => none
  | some (i, _) =>
    let r := placeInShelves st.shelves i w
    some ({ x := r.2.1, y := r.2.2, width := w, height := h },
      { st with shelves := r.1 })

/-- Modelled from the spec: open a new shelf below the lowest shelf, sized
to the request's height, when it fits within the sheet budget. -/
def openShelf (cfg : PackConfig) (w h : ℚ) (st : SheetState) :
    Option (Rectangle × SheetState) :=
  let bottom := shelvesBottom st.shelves
  if w ≤ cfg.max_sheet_width ∧ bottom + h ≤ cfg.max_sheet_height then
    some ({ x := 0, y := bottom, width := w, height := h },
      { st with shelves := st.shelves ++ [{ y := bottom, height := h, cursor := w }] })
  else none

/-- Modelled from the spec: the placement attempt order for one request in
one sheet — existing shelf unrotated, then (when rotation is allowed)
existing shelf rotated, then a new shelf unrotated, then a new shelf
rotated; the boolean in the result records whether rotation was used. -/
def tryPlaceRequest (cfg : PackConfig) (req : Request) (st : SheetState) :
    Option (Rectangle × Bool × SheetState) :=
  let w := req.trimmed.width
  let h := req.trimmed.height
  match placeExisting cfg w h st with
  | some (r, st2) => some (r, false, st2)
  | none =>
    match if cfg.allow_rotation then placeExisting cfg h w st else none with
    | some (r, st2) => some (r, true, st2)
    | none =>
      match openShelf cfg w h st with
      | some (r, st2) => some (r, false, st2)
      | none =>
        match if cfg.allow_rotation then openShelf cfg h w st else none with
        | some (r, st2) => some (r, true, st2)
        | none => none

/-- Every name and alias registered in a sheet so far. -/
def registeredNames (st : SheetState) : List String :=
  st.sprites.foldr (fun sp acc => sp.name :: sp.aliases ++ acc) []

/-- Whether a request's name or one of its aliases collides with a name
already registered in the sheet. -/
def collides (req : Request) (st : SheetState) : Bool :=
  (registeredNames st).contains req.name ||
    req.aliases.any (fun a => (registeredNames st).contains a)

/-- Modelled from the spec: the Sprite produced for a placed request — the
placed rectangle and rotation flag, the trimming offset carried over from
the request, copy level zero, and a back-reference (an identifier) to the
owning sheet. -/
def mkPlacedSprite (req : Request) (rect : Rectangle) (rot : Bool)
    (sheetIdx : Nat) : Sprite :=
  { name := req.name
    aliases := req.aliases
    relative_offset := { x := req.trimmed.x, y := req.trimmed.y }
    size := { width := rect.width, height := rect.height }
    source_size := req.source_size
    rectangle := rect
    rotated := rot
    copy_level := 0
    sheet_unchecked := some { id := sheetIdx } }

/-- Modelled from the spec: one completed sheet of the output atlas — the
fixed-size canvas and the placed sprites in placement order. -/
structure PackedSheet where
  canvas : Size
  sprites : List Sprite
deriving DecidableEq, Repr

/-- Modelled from the spec: the packing loop over the sorted requests —
place in the current sheet when possible, otherwise finalize it and open a
fresh sheet; a request that fits no fresh sheet in either orientation is a
fatal error, as is a name or alias collision within a sheet. -/
def packSorted (cfg : PackConfig) :
    List Request → List SheetState → SheetState → Nat →
      Except String (List SheetState)
  | [], done, cur, _ => Except.ok (done ++ [cur])
  | req :: rest, done, cur, idx =>
    match tryPlaceRequest cfg req cur with
    | some (rect, rot, cur2) =>
      if collides req cur then
        Except.error ("Name collision in sheet: " ++ req.name)
      else
        packSorted cfg rest done
          { cur2 with sprites := cur2.sprites ++ [mkPlacedSprite req rect rot idx] }
          idx
    | none =>
      match tryPlaceRequest cfg req { shelves := [], sprites := [] } with
      | some (rect, rot, st2) =>
        packSorted cfg rest (done ++ [cur])
          { st2 with sprites := [mkPlacedSprite req rect rot (idx + 1)] }
          (idx + 1)
      | none =>
        Except.error ("Sprite too large for any sheet: " ++ req.name)

/-- Modelled from the spec: the Packer — sort the requests, run the shelf
placement loop, and emit the atlas as the list of completed sheets, each
with the fixed-size canvas. -/
def pack (cfg : PackConfig) (reqs : List Request) :
    Except String (List PackedSheet) :=
  match sortRequests reqs with
  | [] => Except.ok []
  | r :: rs =>
    (packSorted cfg (r :: rs) [] { shelves := [], sprites := [] } 0).map
      (List.map (fun st =>
        { canvas := { width := cfg.max_sheet_width, height := cfg.max_sheet_height }
          sprites := st.sprites }))

/-- The per-sheet canvas sizes of a packing result. -/
def atlasCanvases (e : Except String (List PackedSheet)) :
    Except String (List Size) :=
  e.map (List.map PackedSheet.canvas)

/-- The per-sprite rectangles of a packing result, sheet by sheet. -/
def atlasRectangles (e : Except String (List PackedSheet)) :
    Except String (List (List Rectangle)) :=
  e.map (List.map (fun ps => ps.sprites.map Sprite.rectangle))

/-- The per-sprite rotation flags of a packing result, sheet by sheet. -/
def atlasRotations (e : Except String (List PackedSheet)) :
    Except String (List (List Bool)) :=
  e.map (List.map (fun ps => ps.sprites.map Sprite.rotated))

/-- C9: packing is deterministic — the packer is a pure function of the
request list and the configuration alone, so two runs on the same input
yield identical atlases, and in particular identical sheet canvas sizes,
per-sprite rectangles and rotation flags; no state outside the input
enters the computation. -/
theorem claim_c9_pack_deterministic :
    ∀ (r₁ r₂ : List Request) (c₁ c₂ : PackConfig),
      r₁ = r₂ → c₁ = c₂ →
      pack c₁ r₁ = pack c₂ r₂ ∧
      atlasCanvases (pack c₁ r₁) = atlasCanvases (pack c₂ r₂) ∧
      atlasRectangles (pack c₁ r₁) = atlasRectangles (pack c₂ r₂) ∧
      atlasRotations (pack c₁ r₁) = atlasRotations (pack c₂ r₂) := by
  intro r₁ r₂ c₁ c₂ hr hc
  subst hr
  subst hc
  exact ⟨rfl, rfl, rfl, rfl⟩

/-- C9 witness: determinism applied to a concrete run — one 10 by 20
request against a 100 by 100 sheet with rotation allowed. -/
theorem claim_c9_pack_deterministic_witness :
    pack { max_sheet_width := 100, max_sheet_height := 100, allow_rotation := true }
        [{ name := "hero"
           source_size := { width := 12, height := 22 }
           trimmed := { x := 1, y := 1, width := 10, height := 20 } }] =
      pack { max_sheet_width := 100, max_sheet_height := 100, allow_rotation := true }
        [{ name := "hero"
           source_size := { width := 12, height := 22 }
           trimmed := { x := 1, y := 1, width := 10, height := 20 } }] :=
  (claim_c9_pack_deterministic
    [{ name := "hero"
       source_size := { width := 12, height := 22 }
       trimmed := { x := 1, y := 1, width := 10, height := 20 } }]
    [{ name := "hero"
       source_size := { width := 12, height := 22 }
       trimmed := { x := 1, y := 1, width := 10, height := 20 } }]
    { max_sheet_width := 100, max_sheet_height := 100, allow_rotation := true }
    { max_sheet_width := 100, max_sheet_height := 100, allow_rotation := true }
    rfl rfl).1
